import Mathlib

/-!
# A shallow embedding of the temporal-data-pipeline-demo orchestration logic

The repository contains three Temporal workflow definitions:

* `DataPipelineWorkflowHappyPath`   (src/DataPipelineWorkflowHappyPath.py)
* `DataPipelineWorkflowNonRecoverableFailure`
  (src/DataPipelineWorkflowNonRecoverableFailure.py)
* `DataPipelineWorkflowScenarios`   (src/DataPipelineWorkflowScenarios.py),
  a dynamic workflow dispatching on the declared workflow-type name.

Each workflow drives the five-stage pipeline
validate → extract → transform → load → poll, updating a private progress
counter at fixed checkpoints and exposing it via a query handler.

The embedding below renders each `run` method as a pure function of an
`Oracles` record, which supplies the results of the external activity
invocations (the activities live in activities.py, outside the orchestration
sources).  A run produces a `RunResult`: its terminal outcome, the ordered
trace of observable events (activity invocations with their arguments and
task-queue routing, search-attribute upserts, progress checkpoint writes,
sleeps and condition waits), and the final value of the progress counter.

Failure classification follows the Temporal Python SDK semantics used by
this code: an `ApplicationError` raised from workflow code fails the workflow
execution (terminal, not retried — `retryable := false` below), while a plain
`Exception` (the `raise Exception("Workflow bug!")` in the RecoverableBug
branch) fails only the workflow *task*, which the service retries
(`retryable := true` below).
-/

namespace DataPipeline

/-- Modelled from the spec: `DataPipelineParams` is defined in dataobjects.py,
which is not among the orchestration sources.  The spec describes it as an
input carrying "a filename identifier, a validation-policy value"; the
orchestration code accesses exactly the fields `input_filename` and
`validation`. -/
structure DataPipelineParams where
  input_filename : String
  validation : String
deriving Repr, DecidableEq

/-- The argument shape of an activity invocation: no argument
(`get_available_task_queue`), the pipeline params (most stages), or the
params paired with the workflow-type string (`poll` in the Scenarios and
HappyPath workflows, which pass `args=[input, workflow_type]`). -/
inductive ActArgs where
  | noArgs : ActArgs
  | params (p : DataPipelineParams) : ActArgs
  | paramsAndType (p : DataPipelineParams) (t : String) : ActArgs
deriving Repr, DecidableEq

/-- One observable event of a run. `activity` records the activity name, its
argument and the `task_queue` routing option (`none` when the call does not
pass `task_queue=`); `upsert` records a `workflow.upsert_search_attributes`
call; `progress` records an assignment to `self._progress`; `sleep` an
`asyncio.sleep`; `waitCond` a `workflow.wait_condition` with its timeout and
whether the condition became true before the timeout. -/
inductive Event where
  | activity (name : String) (arg : ActArgs) (queue : Option String) : Event
  | upsert (key : String) (value : String) : Event
  | progress (p : Nat) : Event
  | sleep (seconds : Nat) : Event
  | waitCond (timeoutSeconds : Nat) (satisfied : Bool) : Event
deriving Repr, DecidableEq

/-- The terminal outcome of a run: the workflow either returned a string
normally (`completed`) or raised (`failed`, carrying the error message, the
optional `from`-cause message, and whether the host retries). -/
inductive RunOutcome where
  | completed (value : String) : RunOutcome
  | failed (message : String) (cause : Option String) (retryable : Bool) : RunOutcome
deriving Repr, DecidableEq

/-- The result of interpreting one workflow run. -/
structure RunResult where
  outcome : RunOutcome
  trace : List Event
  finalProgress : Nat
deriving Repr, DecidableEq

/-- External activity results consumed by a run.  `validate` returns a
boolean (accept/reject); the other stages return an opaque success string.
`Except.error` models a stage invocation that surfaces a failure to the
workflow.  `load` is indexed by invocation count so a repeated invocation
(the Idempotency scenario) may be modelled independently.
`signalWithin60` / `updateWithin60` say whether the corresponding handler
flag becomes true before the 60-second `wait_condition` timeout. -/
structure Oracles where
  get_available_task_queue : Except String String
  validate : DataPipelineParams → Except String Bool
  extract : DataPipelineParams → Except String String
  transform : DataPipelineParams → Except String String
  load : Nat → DataPipelineParams → Except String String
  poll : DataPipelineParams → Except String String
  signalWithin60 : Bool
  updateWithin60 : Bool

/-- `DataPipelineWorkflowScenarios.BUG` -/
def BUG : String := "DataPipelineRecoverableFailure"
/-- `DataPipelineWorkflowScenarios.FAILURE` -/
def FAILURE : String := "DataPipelineNonRecoverableFailure"
/-- `DataPipelineWorkflowScenarios.SIGNAL` -/
def SIGNAL : String := "DataPipelineHumanInLoopSignal"
/-- `DataPipelineWorkflowScenarios.UPDATE` -/
def UPDATE : String := "DataPipelineHumanInLoopUpdate"
/-- `DataPipelineWorkflowScenarios.VISIBILITY` -/
def VISIBILITY : String := "DataPipelineAdvancedVisibility"
/-- `DataPipelineWorkflowScenarios.IDEMPOTENCY` -/
def IDEMPOTENCY : String := "DataPipelineIdempotency"

/-- The tail of `DataPipelineWorkflowScenarios.run` from the
`self._progress = 80` assignment (line 131) to the return: the
Human-in-Loop signal/update gates or the `poll` activity, the final
AdvancedVisibility upsert, the `self._progress = 100` assignment and the
success return value. -/
def scenariosTail (o : Oracles) (input : DataPipelineParams)
    (workflow_type : String) (tq : String) (tr : List Event) : RunResult :=
  let tr1 := tr ++ [Event.progress 80]
  if SIGNAL = workflow_type then
    if o.signalWithin60 then
      let tr2 := tr1 ++ [Event.waitCond 60 true]
      let tr3 := if VISIBILITY = workflow_type
        then tr2 ++ [Event.upsert "Step" "complete"] else tr2
      { outcome := RunOutcome.completed
          ("Successfully processed: " ++ input.input_filename ++ "!"),
        trace := tr3 ++ [Event.progress 100], finalProgress := 100 }
    else
      { outcome := RunOutcome.failed "Load did not complete before timeout" none false,
        trace := tr1 ++ [Event.waitCond 60 false], finalProgress := 80 }
  else if UPDATE = workflow_type then
    if o.updateWithin60 then
      let tr2 := tr1 ++ [Event.waitCond 60 true]
      let tr3 := if VISIBILITY = workflow_type
        then tr2 ++ [Event.upsert "Step" "complete"] else tr2
      { outcome := RunOutcome.completed
          ("Successfully processed: " ++ input.input_filename ++ "!"),
        trace := tr3 ++ [Event.progress 100], finalProgress := 100 }
    else
      { outcome := RunOutcome.failed "Load did not complete before timeout" none false,
        trace := tr1 ++ [Event.waitCond 60 false], finalProgress := 80 }
  else
    let tr2 := tr1 ++ [Event.activity "poll"
      (ActArgs.paramsAndType input workflow_type) (some tq)]
    match o.poll input with
    | Except.error e =>
      { outcome := RunOutcome.failed e none false, trace := tr2, finalProgress := 80 }
    | Except.ok _ =>
      let tr3 := if VISIBILITY = workflow_type
        then tr2 ++ [Event.upsert "Step" "complete"] else tr2
      { outcome := RunOutcome.completed
          ("Successfully processed: " ++ input.input_filename ++ "!"),
        trace := tr3 ++ [Event.progress 100], finalProgress := 100 }

/-- Shallow embedding of `DataPipelineWorkflowScenarios.run`
(src/DataPipelineWorkflowScenarios.py lines 28-170).  `workflow_type` is the
declared workflow-type name the dynamic workflow dispatches on. -/
def scenariosRun (o : Oracles) (input0 : DataPipelineParams)
    (workflow_type : String) : RunResult :=
  match o.get_available_task_queue with
  | Except.error e =>
    { outcome := RunOutcome.failed e none false,
      trace := [Event.activity "get_available_task_queue" ActArgs.noArgs none],
      finalProgress := 0 }
  | Except.ok tq =>
    let tr1 : List Event :=
      [Event.activity "get_available_task_queue" ActArgs.noArgs none,
       Event.progress 10, Event.sleep 2]
    let tr2 := if VISIBILITY = workflow_type
      then tr1 ++ [Event.upsert "Step" "validation"] else tr1
    let input := if FAILURE = workflow_type
      then { input0 with validation := "blue" } else input0
    let tr3 := tr2 ++ [Event.activity "validate" (ActArgs.params input) none]
    match o.validate input with
    | Except.error e =>
      { outcome := RunOutcome.failed e none false, trace := tr3, finalProgress := 10 }
    | Except.ok false =>
      { outcome := RunOutcome.failed "Workflow failed due to validation"
          (some "Validation Failed") false,
        trace := tr3, finalProgress := 10 }
    | Except.ok true =>
      let tr4 := tr3 ++ [Event.progress 20]
      let tr5 := if VISIBILITY = workflow_type
        then tr4 ++ [Event.upsert "Step" "extract"] else tr4
      let tr6 := tr5 ++ [Event.activity "extract" (ActArgs.params input) (some tq)]
      match o.extract input with
      | Except.error e =>
        { outcome := RunOutcome.failed e none false, trace := tr6, finalProgress := 20 }
      | Except.ok _ =>
        let tr7 := tr6 ++ [Event.progress 40]
        let tr8 := if VISIBILITY = workflow_type
          then tr7 ++ [Event.upsert "Step" "transform"] else tr7
        let tr9 := tr8 ++ [Event.activity "transform" (ActArgs.params input) (some tq)]
        match o.transform input with
        | Except.error e =>
          { outcome := RunOutcome.failed e none false, trace := tr9, finalProgress := 40 }
        | Except.ok _ =>
          if BUG = workflow_type then
            { outcome := RunOutcome.failed "Workflow bug!" none true,
              trace := tr9, finalProgress := 40 }
          else
            let tr10 := tr9 ++ [Event.progress 60]
            let tr11 := if VISIBILITY = workflow_type
              then tr10 ++ [Event.upsert "Step" "load"] else tr10
            let tr12 := tr11 ++ [Event.activity "load" (ActArgs.params input) (some tq)]
            match o.load 0 input with
            | Except.error e =>
              { outcome := RunOutcome.failed e none false, trace := tr12, finalProgress := 60 }
            | Except.ok _ =>
              if IDEMPOTENCY = workflow_type then
                let tr13 := tr12 ++
                  [Event.activity "load" (ActArgs.params input) (some tq)]
                match o.load 1 input with
                | Except.error e =>
                  { outcome := RunOutcome.failed e none false,
                    trace := tr13, finalProgress := 60 }
                | Except.ok _ => scenariosTail o input workflow_type tq tr13
              else scenariosTail o input workflow_type tq tr12

/-- Shallow embedding of `DataPipelineWorkflowHappyPath.run`
(src/DataPipelineWorkflowHappyPath.py lines 16-97).  The `poll` activity is
invoked with `args=[input, workflow_type]`, where the workflow-type name of
this statically registered workflow is its class name. -/
def happyPathRun (o : Oracles) (input : DataPipelineParams) : RunResult :=
  match o.get_available_task_queue with
  | Except.error e =>
    { outcome := RunOutcome.failed e none false,
      trace := [Event.activity "get_available_task_queue" ActArgs.noArgs none],
      finalProgress := 0 }
  | Except.ok tq =>
    let tr1 : List Event :=
      [Event.activity "get_available_task_queue" ActArgs.noArgs none,
       Event.progress 10, Event.sleep 2,
       Event.activity "validate" (ActArgs.params input) none]
    match o.validate input with
    | Except.error e =>
      { outcome := RunOutcome.failed e none false, trace := tr1, finalProgress := 10 }
    | Except.ok false =>
      { outcome := RunOutcome.completed "invalidated", trace := tr1, finalProgress := 10 }
    | Except.ok true =>
      let tr2 := tr1 ++ [Event.progress 20,
        Event.activity "extract" (ActArgs.params input) (some tq)]
      match o.extract input with
      | Except.error e =>
        { outcome := RunOutcome.failed e none false, trace := tr2, finalProgress := 20 }
      | Except.ok _ =>
        let tr3 := tr2 ++ [Event.progress 40,
          Event.activity "transform" (ActArgs.params input) (some tq)]
        match o.transform input with
        | Except.error e =>
          { outcome := RunOutcome.failed e none false, trace := tr3, finalProgress := 40 }
        | Except.ok _ =>
          let tr4 := tr3 ++ [Event.progress 60,
            Event.activity "load" (ActArgs.params input) (some tq)]
          match o.load 0 input with
          | Except.error e =>
            { outcome := RunOutcome.failed e none false, trace := tr4, finalProgress := 60 }
          | Except.ok _ =>
            let tr5 := tr4 ++ [Event.progress 80,
              Event.activity "poll"
                (ActArgs.paramsAndType input "DataPipelineWorkflowHappyPath") (some tq)]
            match o.poll input with
            | Except.error e =>
              { outcome := RunOutcome.failed e none false, trace := tr5, finalProgress := 80 }
            | Except.ok _ =>
              { outcome := RunOutcome.completed
                  ("Successfully processed: " ++ input.input_filename ++ "!"),
                trace := tr5 ++ [Event.progress 100], finalProgress := 100 }

/-- Shallow embedding of `DataPipelineWorkflowNonRecoverableFailure.run`
(src/DataPipelineWorkflowNonRecoverableFailure.py lines 17-104).  Note two
differences from the other workflows: the input's `validation` field is
unconditionally overwritten with `"blue"` before validation, and the
`validate` activity IS invoked with `task_queue=unique_worker_task_queue`
(line 40); also `poll` is invoked with the single argument `input`. -/
def nonRecoverableFailureRun (o : Oracles) (input0 : DataPipelineParams) : RunResult :=
  match o.get_available_task_queue with
  | Except.error e =>
    { outcome := RunOutcome.failed e none false,
      trace := [Event.activity "get_available_task_queue" ActArgs.noArgs none],
      finalProgress := 0 }
  | Except.ok tq =>
    let input := { input0 with validation := "blue" }
    let tr1 : List Event :=
      [Event.activity "get_available_task_queue" ActArgs.noArgs none,
       Event.progress 10, Event.sleep 2,
       Event.activity "validate" (ActArgs.params input) (some tq)]
    match o.validate input with
    | Except.error e =>
      { outcome := RunOutcome.failed e none false, trace := tr1, finalProgress := 10 }
    | Except.ok false =>
      { outcome := RunOutcome.failed "Workflow failed due to validation"
          (some "Validation Failed") false,
        trace := tr1, finalProgress := 10 }
    | Except.ok true =>
      let tr2 := tr1 ++ [Event.progress 20,
        Event.activity "extract" (ActArgs.params input) (some tq)]
      match o.extract input with
      | Except.error e =>
        { outcome := RunOutcome.failed e none false, trace := tr2, finalProgress := 20 }
      | Except.ok _ =>
        let tr3 := tr2 ++ [Event.progress 40,
          Event.activity "transform" (ActArgs.params input) (some tq)]
        match o.transform input with
        | Except.error e =>
          { outcome := RunOutcome.failed e none false, trace := tr3, finalProgress := 40 }
        | Except.ok _ =>
          let tr4 := tr3 ++ [Event.progress 60,
            Event.activity "load" (ActArgs.params input) (some tq)]
          match o.load 0 input with
          | Except.error e =>
            { outcome := RunOutcome.failed e none false, trace := tr4, finalProgress := 60 }
          | Except.ok _ =>
            let tr5 := tr4 ++ [Event.progress 80,
              Event.activity "poll" (ActArgs.params input) (some tq)]
            match o.poll input with
            | Except.error e =>
              { outcome := RunOutcome.failed e none false, trace := tr5, finalProgress := 80 }
            | Except.ok _ =>
              { outcome := RunOutcome.completed
                  ("Successfully processed: " ++ input.input_filename ++ "!"),
                trace := tr5 ++ [Event.progress 100], finalProgress := 100 }

/-- The handler-visible mutable state of a `DataPipelineWorkflowScenarios`
instance: the two Human-in-Loop flags and the progress counter, as
initialized in `__init__` (lines 23-26). -/
structure WorkflowState where
  load_complete_signal : Bool
  load_complete_update : Bool
  progress : Nat
deriving Repr, DecidableEq

/-- `DataPipelineWorkflowScenarios.__init__`. -/
def initState : WorkflowState :=
  { load_complete_signal := false, load_complete_update := false, progress := 0 }

/-- The `@workflow.signal` handler `load_complete_signal` (lines 172-174). -/
def load_complete_signal_handler (s : WorkflowState) (complete : String) : WorkflowState :=
  { s with load_complete_signal := true }

/-- The `@workflow.update` handler `load_complete_update` (lines 176-179):
mutates the flag and returns an acknowledgment string. -/
def load_complete_update_handler (s : WorkflowState) (complete : String) :
    WorkflowState × String :=
  ({ s with load_complete_update := true }, "Workflow update successful")

/-- The `@workflow.query` handler `progress` (lines 181-183). -/
def progress_query (s : WorkflowState) : Nat := s.progress

/-- The values assigned to the progress counter along a trace, in order. -/
def progOf : List Event → List Nat
  | [] => []
  | Event.progress p :: es => p :: progOf es
  | Event.activity _ _ _ :: es => progOf es
  | Event.upsert _ _ :: es => progOf es
  | Event.sleep _ :: es => progOf es
  | Event.waitCond _ _ :: es => progOf es

/-- The sequence of values assigned to the progress counter over a run's
lifetime, starting from the `__init__` value 0: exactly the values a
`progress` query can observe. -/
def progressValues (r : RunResult) : List Nat :=
  0 :: progOf r.trace

/-- The (activity name, task-queue routing) pairs of a trace, in order. -/
def queuesOf : List Event → List (String × Option String)
  | [] => []
  | Event.activity n _ q :: es => (n, q) :: queuesOf es
  | Event.upsert _ _ :: es => queuesOf es
  | Event.progress _ :: es => queuesOf es
  | Event.sleep _ :: es => queuesOf es
  | Event.waitCond _ _ :: es => queuesOf es

/-- The `load`-activity invocations of a trace. -/
def loadCalls : List Event → List Event
  | [] => []
  | Event.activity n a q :: es =>
    if n = "load" then Event.activity n a q :: loadCalls es else loadCalls es
  | Event.upsert _ _ :: es => loadCalls es
  | Event.progress _ :: es => loadCalls es
  | Event.sleep _ :: es => loadCalls es
  | Event.waitCond _ _ :: es => loadCalls es

/-- A projection of a trace onto search-attribute publications under the key
`Step` and activity invocations, keeping their relative order. -/
inductive VisEvent where
  | tag (value : String) : VisEvent
  | call (name : String) : VisEvent
deriving Repr, DecidableEq

/-- Projects a trace to its `Step` upserts and activity calls. -/
def visProj : List Event → List VisEvent
  | [] => []
  | Event.upsert k v :: es =>
    if k = "Step" then VisEvent.tag v :: visProj es else visProj es
  | Event.activity n _ _ :: es => VisEvent.call n :: visProj es
  | Event.progress _ :: es => visProj es
  | Event.sleep _ :: es => visProj es
  | Event.waitCond _ _ :: es => visProj es

theorem progOf_append (a b : List Event) :
    progOf (a ++ b) = progOf a ++ progOf b := by
  induction a with
  | nil => rfl
  | cons e es ih => cases e <;> simp [progOf, ih]

theorem progOf_ite (c : Prop) [Decidable c] (a b : List Event) :
    progOf (if c then a else b) = if c then progOf a else progOf b := by
  split <;> rfl

theorem queuesOf_append (a b : List Event) :
    queuesOf (a ++ b) = queuesOf a ++ queuesOf b := by
  induction a with
  | nil => rfl
  | cons e es ih => cases e <;> simp [queuesOf, ih]

theorem queuesOf_ite (c : Prop) [Decidable c] (a b : List Event) :
    queuesOf (if c then a else b) = if c then queuesOf a else queuesOf b := by
  split <;> rfl

theorem loadCalls_append (a b : List Event) :
    loadCalls (a ++ b) = loadCalls a ++ loadCalls b := by
  induction a with
  | nil => rfl
  | cons e es ih => cases e <;> simp [loadCalls, ih] <;> split <;> simp [ih]

theorem loadCalls_ite (c : Prop) [Decidable c] (a b : List Event) :
    loadCalls (if c then a else b) = if c then loadCalls a else loadCalls b := by
  split <;> rfl

theorem visProj_append (a b : List Event) :
    visProj (a ++ b) = visProj a ++ visProj b := by
  induction a with
  | nil => rfl
  | cons e es ih => cases e <;> simp [visProj, ih] <;> split <;> simp [ih]

theorem visProj_ite (c : Prop) [Decidable c] (a b : List Event) :
    visProj (if c then a else b) = if c then visProj a else visProj b := by
  split <;> rfl

/-- The progress checkpoint values named by the spec. -/
def progressCheckpoints : List Nat := [0, 10, 20, 40, 60, 80, 100]

/-- Modelled from the spec: the `validate` activity (activities.py, outside
the orchestration sources) is "guaranteed to fail validation" on the value
`"blue"` that the NonRecoverableFailure paths write into the request's
validation-policy field ("Overwrite validation parameter which is blue,
causing workflow to fail"). -/
def ValidateRejectsBlue (o : Oracles) : Prop :=
  ∀ p : DataPipelineParams, p.validation = "blue" → o.validate p = Except.ok false

/-- A concrete oracle assignment on which every stage succeeds and the
validate activity rejects exactly the `"blue"` validation-policy value. -/
def okOracles : Oracles :=
  { get_available_task_queue := Except.ok "worker-q-1"
    validate := fun p => Except.ok (p.validation != "blue")
    extract := fun _ => Except.ok "extracted"
    transform := fun _ => Except.ok "transformed"
    load := fun _ _ => Except.ok "loaded"
    poll := fun _ => Except.ok "polled"
    signalWithin60 := true
    updateWithin60 := true }

/-- `okOracles` with neither human-in-loop flag set within the timeout. -/
def timeoutOracles : Oracles :=
  { okOracles with signalWithin60 := false, updateWithin60 := false }

/-- `okOracles` with a validate activity that rejects every input. -/
def rejectOracles : Oracles :=
  { okOracles with validate := fun _ => Except.ok false }



theorem scenariosTail_shape (o : Oracles) (input : DataPipelineParams)
    (wt tq : String) (tr : List Event) :
    (progOf (scenariosTail o input wt tq tr).trace = progOf tr ++ [80] ∨
     progOf (scenariosTail o input wt tq tr).trace = progOf tr ++ [80, 100]) ∧
    (queuesOf (scenariosTail o input wt tq tr).trace = queuesOf tr ∨
     queuesOf (scenariosTail o input wt tq tr).trace =
       queuesOf tr ++ [("poll", some tq)]) := by
  unfold scenariosTail
  by_cases hS : SIGNAL = wt
  · cases hsig : o.signalWithin60 <;>
      simp [hS, hsig, progOf_append, progOf_ite, progOf,
        queuesOf_append, queuesOf_ite, queuesOf]
  · by_cases hU : UPDATE = wt
    · cases hupd : o.updateWithin60 <;>
        simp [hS, hU, hupd, progOf_append, progOf_ite, progOf,
          queuesOf_append, queuesOf_ite, queuesOf]
    · cases hp : o.poll input <;>
        simp [hS, hU, hp, progOf_append, progOf_ite, progOf,
          queuesOf_append, queuesOf_ite, queuesOf]

theorem scenariosTail_shape2 (o : Oracles) (input : DataPipelineParams)
    (wt tq : String) (tr : List Event)
    (h1 : progOf tr = [10, 20, 40, 60])
    (h2 : ∀ pr ∈ queuesOf tr,
      pr.2 = if pr.1 = "get_available_task_queue" ∨ pr.1 = "validate"
        then none else some tq) :
    (∃ n : Nat,
      progOf (scenariosTail o input wt tq tr).trace =
        List.take n [10, 20, 40, 60, 80, 100]) ∧
    (∀ pr ∈ queuesOf (scenariosTail o input wt tq tr).trace,
      pr.2 = if pr.1 = "get_available_task_queue" ∨ pr.1 = "validate"
        then none else some tq) := by
  obtain ⟨hp, hqs⟩ := scenariosTail_shape o input wt tq tr
  constructor
  · rcases hp with h | h <;> rw [h, h1]
    · exact ⟨5, rfl⟩
    · exact ⟨6, rfl⟩
  · rcases hqs with h | h <;> rw [h]
    · exact h2
    · intro pr hpr
      rw [List.mem_append] at hpr
      rcases hpr with hpr | hpr
      · exact h2 pr hpr
      · simp only [List.mem_singleton] at hpr
        subst hpr
        simp

theorem scenariosRun_shape (o : Oracles) (input : DataPipelineParams)
    (wt tq : String) (hq : o.get_available_task_queue = Except.ok tq) :
    (∃ n : Nat,
      progOf (scenariosRun o input wt).trace =
        List.take n [10, 20, 40, 60, 80, 100]) ∧
    (∀ pr ∈ queuesOf (scenariosRun o input wt).trace,
      pr.2 = if pr.1 = "get_available_task_queue" ∨ pr.1 = "validate"
        then none else some tq) := by
  simp only [scenariosRun, hq]
  generalize (if FAILURE = wt then { input with validation := "blue" } else input) = inp
  cases hval : o.validate inp with
  | error e =>
    simp [hval, progOf_append, progOf_ite, progOf,
      queuesOf_append, queuesOf_ite, queuesOf]
    exact ⟨1, rfl⟩
  | ok b =>
    cases b with
    | false =>
      simp [hval, progOf_append, progOf_ite, progOf,
        queuesOf_append, queuesOf_ite, queuesOf]
      exact ⟨1, rfl⟩
    | true =>
      cases hext : o.extract inp with
      | error e =>
        simp [hval, hext, progOf_append, progOf_ite, progOf,
          queuesOf_append, queuesOf_ite, queuesOf]
        exact ⟨2, rfl⟩
      | ok s1 =>
        cases htr : o.transform inp with
        | error e =>
          simp [hval, hext, htr, progOf_append, progOf_ite, progOf,
            queuesOf_append, queuesOf_ite, queuesOf]
          exact ⟨3, rfl⟩
        | ok s2 =>
          by_cases hB : BUG = wt
          · simp [hval, hext, htr, hB, progOf_append, progOf_ite, progOf,
              queuesOf_append, queuesOf_ite, queuesOf]
            exact ⟨3, rfl⟩
          · cases hld : o.load 0 inp with
            | error e =>
              simp [hval, hext, htr, hB, hld, progOf_append, progOf_ite, progOf,
                queuesOf_append, queuesOf_ite, queuesOf]
              exact ⟨4, rfl⟩
            | ok s3 =>
              by_cases hI : IDEMPOTENCY = wt
              · cases hld1 : o.load 1 inp with
                | error e =>
                  simp [hval, hext, htr, hB, hld, hI, hld1,
                    progOf_append, progOf_ite, progOf,
                    queuesOf_append, queuesOf_ite, queuesOf]
                  exact ⟨4, rfl⟩
                | ok s4 =>
                  simp only [hval, hext, htr, hld, hld1, hI, hB, if_true, if_false,
                    eq_self_iff_true, ite_true, ite_false, if_neg, not_false_iff]
                  refine scenariosTail_shape2 o inp wt tq _ ?_ ?_
                  · simp [progOf_append, progOf_ite, progOf]
                  · simp [queuesOf_append, queuesOf_ite, queuesOf]
              · simp only [hval, hext, htr, hld, hI, hB, if_true, if_false,
                  eq_self_iff_true, ite_true, ite_false]
                refine scenariosTail_shape2 o inp wt tq _ ?_ ?_
                · simp [progOf_append, progOf_ite, progOf]
                · simp [queuesOf_append, queuesOf_ite, queuesOf]



theorem happyPathRun_shape (o : Oracles) (input : DataPipelineParams)
    (tq : String) (hq : o.get_available_task_queue = Except.ok tq) :
    (∃ n : Nat,
      progOf (happyPathRun o input).trace =
        List.take n [10, 20, 40, 60, 80, 100]) ∧
    (∀ pr ∈ queuesOf (happyPathRun o input).trace,
      pr.2 = if pr.1 = "get_available_task_queue" ∨ pr.1 = "validate"
        then none else some tq) := by
  simp only [happyPathRun, hq]
  cases hval : o.validate input with
  | error e =>
    simp [hval, progOf_append, progOf, queuesOf_append, queuesOf]
    exact ⟨1, rfl⟩
  | ok b =>
    cases b with
    | false =>
      simp [hval, progOf_append, progOf, queuesOf_append, queuesOf]
      exact ⟨1, rfl⟩
    | true =>
      cases hext : o.extract input with
      | error e =>
        simp [hval, hext, progOf_append, progOf, queuesOf_append, queuesOf]
        exact ⟨2, rfl⟩
      | ok s1 =>
        cases htr : o.transform input with
        | error e =>
          simp [hval, hext, htr, progOf_append, progOf, queuesOf_append, queuesOf]
          exact ⟨3, rfl⟩
        | ok s2 =>
          cases hld : o.load 0 input with
          | error e =>
            simp [hval, hext, htr, hld, progOf_append, progOf,
              queuesOf_append, queuesOf]
            exact ⟨4, rfl⟩
          | ok s3 =>
            cases hp : o.poll input with
            | error e =>
              simp [hval, hext, htr, hld, hp, progOf_append, progOf,
                queuesOf_append, queuesOf]
              exact ⟨5, rfl⟩
            | ok s4 =>
              simp [hval, hext, htr, hld, hp, progOf_append, progOf,
                queuesOf_append, queuesOf]
              exact ⟨6, le_rfl⟩

theorem nonRecoverableFailureRun_shape (o : Oracles) (input : DataPipelineParams)
    (tq : String) (hq : o.get_available_task_queue = Except.ok tq) :
    (∃ n : Nat,
      progOf (nonRecoverableFailureRun o input).trace =
        List.take n [10, 20, 40, 60, 80, 100]) ∧
    (∀ pr ∈ queuesOf (nonRecoverableFailureRun o input).trace,
      pr.2 = if pr.1 = "get_available_task_queue" then none else some tq) := by
  simp only [nonRecoverableFailureRun, hq]
  generalize ({ input with validation := "blue" } : DataPipelineParams) = inp
  cases hval : o.validate inp with
  | error e =>
    simp [hval, progOf_append, progOf, queuesOf_append, queuesOf]
    exact ⟨1, rfl⟩
  | ok b =>
    cases b with
    | false =>
      simp [hval, progOf_append, progOf, queuesOf_append, queuesOf]
      exact ⟨1, rfl⟩
    | true =>
      cases hext : o.extract inp with
      | error e =>
        simp [hval, hext, progOf_append, progOf, queuesOf_append, queuesOf]
        exact ⟨2, rfl⟩
      | ok s1 =>
        cases htr : o.transform inp with
        | error e =>
          simp [hval, hext, htr, progOf_append, progOf, queuesOf_append, queuesOf]
          exact ⟨3, rfl⟩
        | ok s2 =>
          cases hld : o.load 0 inp with
          | error e =>
            simp [hval, hext, htr, hld, progOf_append, progOf,
              queuesOf_append, queuesOf]
            exact ⟨4, rfl⟩
          | ok s3 =>
            cases hp : o.poll inp with
            | error e =>
              simp [hval, hext, htr, hld, hp, progOf_append, progOf,
                queuesOf_append, queuesOf]
              exact ⟨5, rfl⟩
            | ok s4 =>
              simp [hval, hext, htr, hld, hp, progOf_append, progOf,
                queuesOf_append, queuesOf]
              exact ⟨6, le_rfl⟩

theorem zero_cons_take_sorted (n : Nat) :
    ((0 : Nat) :: List.take n [10, 20, 40, 60, 80, 100]).Sorted (· ≤ ·) ∧
    (∀ p ∈ ((0 : Nat) :: List.take n [10, 20, 40, 60, 80, 100]),
      p ∈ progressCheckpoints) := by
  match n with
  | 0 => decide
  | 1 => decide
  | 2 => decide
  | 3 => decide
  | 4 => decide
  | 5 => decide
  | m + 6 =>
    rw [List.take_of_length_le (by simp)]
    decide

/-- The closed set of workflow-type names the Scenarios workflow recognizes. -/
def recognizedVariants : List String :=
  [BUG, FAILURE, SIGNAL, UPDATE, VISIBILITY, IDEMPOTENCY]

/-- C1 counterexample: the claim asserts progress is frozen at 20 after a
validation failure, but at an explicit concrete input the Happy-path run
returns "invalidated" with progress 10, and the Scenarios run under the
NonRecoverableFailure variant fails validation with progress 10: in neither
case is the post-termination progress 20. -/
theorem validation_progress_frozen_cex :
    (happyPathRun rejectOracles ⟨"input.csv", "green"⟩).outcome
        = RunOutcome.completed "invalidated" ∧
    (happyPathRun rejectOracles ⟨"input.csv", "green"⟩).finalProgress = 10 ∧
    (happyPathRun rejectOracles ⟨"input.csv", "green"⟩).finalProgress ≠ 20 ∧
    (scenariosRun okOracles ⟨"input.csv", "green"⟩ FAILURE).outcome
        = RunOutcome.failed "Workflow failed due to validation"
            (some "Validation Failed") false ∧
    (scenariosRun okOracles ⟨"input.csv", "green"⟩ FAILURE).finalProgress = 10 ∧
    (scenariosRun okOracles ⟨"input.csv", "green"⟩ FAILURE).finalProgress ≠ 20 := by
  decide

/-- C1 (amended): when validation rejects, the Happy-path run terminates
with the soft "invalidated" result, the Scenarios run under every variant
(including NonRecoverableFailure, whose validation-policy field is forced to
"blue") and the NonRecoverableFailure workflow terminate with a
non-retryable failure wrapping the validation-failure cause; in all cases
the progress value observable after termination is frozen at 10. -/
theorem validation_failure_outcomes (o : Oracles) (input : DataPipelineParams)
    (tq : String)
    (hq : o.get_available_task_queue = Except.ok tq)
    (hb : ValidateRejectsBlue o)
    (hv : o.validate input = Except.ok false) :
    ((happyPathRun o input).outcome = RunOutcome.completed "invalidated" ∧
     (happyPathRun o input).finalProgress = 10) ∧
    (∀ wt : String,
      (scenariosRun o input wt).outcome =
        RunOutcome.failed "Workflow failed due to validation"
          (some "Validation Failed") false ∧
      (scenariosRun o input wt).finalProgress = 10) ∧
    ((nonRecoverableFailureRun o input).outcome =
        RunOutcome.failed "Workflow failed due to validation"
          (some "Validation Failed") false ∧
     (nonRecoverableFailureRun o input).finalProgress = 10) := by
  have hblue : o.validate { input with validation := "blue" } = Except.ok false :=
    hb _ rfl
  refine ⟨?_, ?_, ?_⟩
  · simp [happyPathRun, hq, hv]
  · intro wt
    by_cases hF : FAILURE = wt
    · simp [scenariosRun, hq, ← hF, hblue]
    · simp [scenariosRun, hq, hF, hv]
  · simp [nonRecoverableFailureRun, hq, hblue]

/-- C1 witness: the amended theorem applied at a concrete rejecting oracle. -/
theorem validation_failure_outcomes_witness :
    (scenariosRun rejectOracles ⟨"w.csv", "green"⟩ SIGNAL).finalProgress = 10 ∧
    (happyPathRun rejectOracles ⟨"w.csv", "green"⟩).outcome =
      RunOutcome.completed "invalidated" := by
  have h := validation_failure_outcomes rejectOracles ⟨"w.csv", "green"⟩
    "worker-q-1" rfl (fun _ _ => rfl) rfl
  exact ⟨(h.2.1 SIGNAL).2, h.1.1⟩

/-- C2: for every oracle assignment, input and declared workflow-type name,
the sequence of values the progress query can observe over the lifetime of a
run of any of the three workflows is non-decreasing and contained in
{0, 10, 20, 40, 60, 80, 100}. -/
theorem progress_monotone_and_bounded :
    ∀ (o : Oracles) (input : DataPipelineParams) (wt : String),
      ((progressValues (scenariosRun o input wt)).Sorted (· ≤ ·) ∧
        ∀ p ∈ progressValues (scenariosRun o input wt), p ∈ progressCheckpoints) ∧
      ((progressValues (happyPathRun o input)).Sorted (· ≤ ·) ∧
        ∀ p ∈ progressValues (happyPathRun o input), p ∈ progressCheckpoints) ∧
      ((progressValues (nonRecoverableFailureRun o input)).Sorted (· ≤ ·) ∧
        ∀ p ∈ progressValues (nonRecoverableFailureRun o input),
          p ∈ progressCheckpoints) := by
  intro o input wt
  refine ⟨?_, ?_, ?_⟩
  · cases hget : o.get_available_task_queue with
    | error e =>
      have h : progressValues (scenariosRun o input wt) = [0] := by
        simp [progressValues, scenariosRun, hget, progOf]
      rw [h]
      exact ⟨by decide, by decide⟩
    | ok tq =>
      obtain ⟨⟨n, hn⟩, -⟩ := scenariosRun_shape o input wt tq hget
      have h : progressValues (scenariosRun o input wt) =
          0 :: List.take n [10, 20, 40, 60, 80, 100] := by
        rw [progressValues, hn]
      rw [h]
      exact zero_cons_take_sorted n
  · cases hget : o.get_available_task_queue with
    | error e =>
      have h : progressValues (happyPathRun o input) = [0] := by
        simp [progressValues, happyPathRun, hget, progOf]
      rw [h]
      exact ⟨by decide, by decide⟩
    | ok tq =>
      obtain ⟨⟨n, hn⟩, -⟩ := happyPathRun_shape o input tq hget
      have h : progressValues (happyPathRun o input) =
          0 :: List.take n [10, 20, 40, 60, 80, 100] := by
        rw [progressValues, hn]
      rw [h]
      exact zero_cons_take_sorted n
  · cases hget : o.get_available_task_queue with
    | error e =>
      have h : progressValues (nonRecoverableFailureRun o input) = [0] := by
        simp [progressValues, nonRecoverableFailureRun, hget, progOf]
      rw [h]
      exact ⟨by decide, by decide⟩
    | ok tq =>
      obtain ⟨⟨n, hn⟩, -⟩ := nonRecoverableFailureRun_shape o input tq hget
      have h : progressValues (nonRecoverableFailureRun o input) =
          0 :: List.take n [10, 20, 40, 60, 80, 100] := by
        rw [progressValues, hn]
      rw [h]
      exact zero_cons_take_sorted n

/-- C3 counterexample: the claim asserts that an unrecognized workflow-type
name fails immediately without executing any pipeline stage, but at an
explicit concrete input the Scenarios run under the unrecognized name
completes the whole pipeline successfully, invoking extract and load. -/
theorem unknown_variant_runs_pipeline_cex :
    (scenariosRun okOracles ⟨"input.csv", "green"⟩ "NoSuchPipelineVariant").outcome
        = RunOutcome.completed "Successfully processed: input.csv!" ∧
    Event.activity "extract" (ActArgs.params ⟨"input.csv", "green"⟩)
        (some "worker-q-1")
      ∈ (scenariosRun okOracles ⟨"input.csv", "green"⟩ "NoSuchPipelineVariant").trace ∧
    Event.activity "load" (ActArgs.params ⟨"input.csv", "green"⟩)
        (some "worker-q-1")
      ∈ (scenariosRun okOracles ⟨"input.csv", "green"⟩ "NoSuchPipelineVariant").trace := by
  decide

/-- C3 (amended): a declared workflow-type name outside the closed set of
recognized variant names is not rejected; the Scenarios run applies no
behavioral deltas and executes the full base pipeline (worker discovery,
validate, extract, transform, load, poll), publishing no search attributes
and entering no Human-in-Loop wait, and with all stages succeeding it
terminates successfully with progress 100. -/
theorem unknown_variant_base_sequence (o : Oracles) (input : DataPipelineParams)
    (wt tq s1 s2 s3 s4 : String)
    (hwt : wt ∉ recognizedVariants)
    (hq : o.get_available_task_queue = Except.ok tq)
    (hv : o.validate input = Except.ok true)
    (he : o.extract input = Except.ok s1)
    (ht : o.transform input = Except.ok s2)
    (hl : o.load 0 input = Except.ok s3)
    (hp : o.poll input = Except.ok s4) :
    queuesOf (scenariosRun o input wt).trace =
      [("get_available_task_queue", none), ("validate", none),
       ("extract", some tq), ("transform", some tq),
       ("load", some tq), ("poll", some tq)] ∧
    (scenariosRun o input wt).outcome =
      RunOutcome.completed
        ("Successfully processed: " ++ input.input_filename ++ "!") ∧
    (scenariosRun o input wt).finalProgress = 100 ∧
    (∀ k v, Event.upsert k v ∉ (scenariosRun o input wt).trace) ∧
    (∀ n b, Event.waitCond n b ∉ (scenariosRun o input wt).trace) := by
  simp only [recognizedVariants, List.mem_cons, List.not_mem_nil, or_false,
    not_or] at hwt
  obtain ⟨h1, h2, h3, h4, h5, h6⟩ := hwt
  have n1 : ¬ (BUG = wt) := fun h => h1 h.symm
  have n2 : ¬ (FAILURE = wt) := fun h => h2 h.symm
  have n3 : ¬ (SIGNAL = wt) := fun h => h3 h.symm
  have n4 : ¬ (UPDATE = wt) := fun h => h4 h.symm
  have n5 : ¬ (VISIBILITY = wt) := fun h => h5 h.symm
  have n6 : ¬ (IDEMPOTENCY = wt) := fun h => h6 h.symm
  simp [scenariosRun, scenariosTail, hq, hv, he, ht, hl, hp,
    n1, n2, n3, n4, n5, n6, queuesOf_append, queuesOf_ite, queuesOf]

/-- C3 witness: the amended theorem applied at a concrete unrecognized
workflow-type name. -/
theorem unknown_variant_base_sequence_witness :
    (scenariosRun okOracles ⟨"f.csv", "green"⟩ "NoSuchPipelineVariant").outcome =
      RunOutcome.completed "Successfully processed: f.csv!" ∧
    (scenariosRun okOracles ⟨"f.csv", "green"⟩ "NoSuchPipelineVariant").finalProgress
      = 100 := by
  have h := unknown_variant_base_sequence okOracles ⟨"f.csv", "green"⟩
    "NoSuchPipelineVariant" "worker-q-1" "extracted" "transformed" "loaded" "polled"
    (by decide) rfl rfl rfl rfl rfl rfl
  exact ⟨h.2.1, h.2.2.1⟩

/-- C4: with validation accepting and every stage succeeding, the Happy-path
run terminates with a Success result whose message contains the request's
input filename, and the final progress is 100. -/
theorem happy_path_success (o : Oracles) (input : DataPipelineParams)
    (tq s1 s2 s3 s4 : String)
    (hq : o.get_available_task_queue = Except.ok tq)
    (hv : o.validate input = Except.ok true)
    (he : o.extract input = Except.ok s1)
    (ht : o.transform input = Except.ok s2)
    (hl : o.load 0 input = Except.ok s3)
    (hp : o.poll input = Except.ok s4) :
    (happyPathRun o input).outcome =
      RunOutcome.completed
        ("Successfully processed: " ++ input.input_filename ++ "!") ∧
    (∃ pre post : String, (happyPathRun o input).outcome =
      RunOutcome.completed (pre ++ input.input_filename ++ post)) ∧
    (happyPathRun o input).finalProgress = 100 := by
  refine ⟨?_, ⟨"Successfully processed: ", "!", ?_⟩, ?_⟩ <;>
    simp [happyPathRun, hq, hv, he, ht, hl, hp]

/-- C4 witness: the theorem applied at a concrete accepting oracle. -/
theorem happy_path_success_witness :
    (happyPathRun okOracles ⟨"transactions.csv", "green"⟩).outcome =
      RunOutcome.completed "Successfully processed: transactions.csv!" ∧
    (happyPathRun okOracles ⟨"transactions.csv", "green"⟩).finalProgress = 100 := by
  have h := happy_path_success okOracles ⟨"transactions.csv", "green"⟩
    "worker-q-1" "extracted" "transformed" "loaded" "polled" rfl rfl rfl rfl rfl rfl
  exact ⟨h.1, h.2.2⟩

/-- C5: in a successful run under the AdvancedVisibility variant, the
sequence of Step search-attribute tags interleaved with the activity
invocations is exactly validation, extract, transform, load, complete, each
of the first four published immediately before the correspondingly named
stage invocation and the last after the poll step. -/
theorem visibility_step_sequence (o : Oracles) (input : DataPipelineParams)
    (tq s1 s2 s3 s4 : String)
    (hq : o.get_available_task_queue = Except.ok tq)
    (hv : o.validate input = Except.ok true)
    (he : o.extract input = Except.ok s1)
    (ht : o.transform input = Except.ok s2)
    (hl : o.load 0 input = Except.ok s3)
    (hp : o.poll input = Except.ok s4) :
    visProj (scenariosRun o input VISIBILITY).trace =
      [VisEvent.call "get_available_task_queue", VisEvent.tag "validation",
       VisEvent.call "validate", VisEvent.tag "extract", VisEvent.call "extract",
       VisEvent.tag "transform", VisEvent.call "transform",
       VisEvent.tag "load", VisEvent.call "load",
       VisEvent.call "poll", VisEvent.tag "complete"] ∧
    (scenariosRun o input VISIBILITY).outcome =
      RunOutcome.completed
        ("Successfully processed: " ++ input.input_filename ++ "!") := by
  simp [scenariosRun, scenariosTail, hq, hv, he, ht, hl, hp,
    BUG, FAILURE, SIGNAL, UPDATE, VISIBILITY, IDEMPOTENCY,
    visProj_append, visProj_ite, visProj]

/-- C5 witness: the theorem applied at a concrete accepting oracle. -/
theorem visibility_step_sequence_witness :
    visProj (scenariosRun okOracles ⟨"f.csv", "green"⟩ VISIBILITY).trace =
      [VisEvent.call "get_available_task_queue", VisEvent.tag "validation",
       VisEvent.call "validate", VisEvent.tag "extract", VisEvent.call "extract",
       VisEvent.tag "transform", VisEvent.call "transform",
       VisEvent.tag "load", VisEvent.call "load",
       VisEvent.call "poll", VisEvent.tag "complete"] := by
  have h := visibility_step_sequence okOracles ⟨"f.csv", "green"⟩
    "worker-q-1" "extracted" "transformed" "loaded" "polled" rfl rfl rfl rfl rfl rfl
  exact h.1

/-- C6 counterexample: the claim asserts the validate call is never routed
through the worker-affinity token, but in the NonRecoverableFailure workflow
the validate activity is invoked with the discovered task queue at an
explicit concrete input. -/
theorem nonrecoverable_validate_routed_cex :
    Event.activity "validate" (ActArgs.params ⟨"input.csv", "blue"⟩)
        (some "worker-q-1")
      ∈ (nonRecoverableFailureRun okOracles ⟨"input.csv", "green"⟩).trace := by
  decide

/-- C6 (amended): in the Scenarios and Happy-path workflows the
worker-discovery call and the validate call are the only activity
invocations not routed through the discovered execution channel, and every
other stage invocation is routed through exactly that channel; in the
NonRecoverableFailure workflow every activity invocation after worker
discovery, including validate, is routed through that channel. -/
theorem worker_affinity_routing (o : Oracles) (input : DataPipelineParams)
    (wt tq : String) (hq : o.get_available_task_queue = Except.ok tq) :
    (∀ pr ∈ queuesOf (scenariosRun o input wt).trace,
      pr.2 = if pr.1 = "get_available_task_queue" ∨ pr.1 = "validate"
        then none else some tq) ∧
    (∀ pr ∈ queuesOf (happyPathRun o input).trace,
      pr.2 = if pr.1 = "get_available_task_queue" ∨ pr.1 = "validate"
        then none else some tq) ∧
    (∀ pr ∈ queuesOf (nonRecoverableFailureRun o input).trace,
      pr.2 = if pr.1 = "get_available_task_queue" then none else some tq) :=
  ⟨(scenariosRun_shape o input wt tq hq).2,
   (happyPathRun_shape o input tq hq).2,
   (nonRecoverableFailureRun_shape o input tq hq).2⟩

/-- C6 witness: the amended theorem applied at a concrete oracle, projected
to the routing of the extract invocation of the Scenarios run. -/
theorem worker_affinity_routing_witness :
    (("extract", (some "worker-q-1" : Option String)) : String × Option String).2 =
      if ("extract", (some "worker-q-1" : Option String)).1 = "get_available_task_queue"
          ∨ ("extract", (some "worker-q-1" : Option String)).1 = "validate"
        then none else some "worker-q-1" := by
  have h := worker_affinity_routing okOracles ⟨"f.csv", "green"⟩ IDEMPOTENCY
    "worker-q-1" rfl
  exact h.1 ("extract", some "worker-q-1") (by decide)

/-- C7: under the RecoverableBug variant, once transform succeeds the run
raises the generic retryable "Workflow bug!" failure with no load invocation
in its trace and the progress checkpoints stopped at 40, so a progress query
during the retry window returns 40. -/
theorem recoverable_bug_checkpoint (o : Oracles) (input : DataPipelineParams)
    (tq s1 s2 : String)
    (hq : o.get_available_task_queue = Except.ok tq)
    (hv : o.validate input = Except.ok true)
    (he : o.extract input = Except.ok s1)
    (ht : o.transform input = Except.ok s2) :
    (scenariosRun o input BUG).outcome =
      RunOutcome.failed "Workflow bug!" none true ∧
    (scenariosRun o input BUG).finalProgress = 40 ∧
    loadCalls (scenariosRun o input BUG).trace = [] ∧
    progOf (scenariosRun o input BUG).trace = [10, 20, 40] := by
  simp [scenariosRun, hq, hv, he, ht,
    BUG, FAILURE, SIGNAL, UPDATE, VISIBILITY, IDEMPOTENCY,
    loadCalls_append, loadCalls_ite, loadCalls,
    progOf_append, progOf_ite, progOf]

/-- C7 witness: the theorem applied at a concrete accepting oracle. -/
theorem recoverable_bug_checkpoint_witness :
    (scenariosRun okOracles ⟨"f.csv", "green"⟩ BUG).outcome =
      RunOutcome.failed "Workflow bug!" none true ∧
    (scenariosRun okOracles ⟨"f.csv", "green"⟩ BUG).finalProgress = 40 := by
  have h := recoverable_bug_checkpoint okOracles ⟨"f.csv", "green"⟩
    "worker-q-1" "extracted" "transformed" rfl rfl rfl rfl
  exact ⟨h.1, h.2.1⟩

/-- C8: under the HumanSignal and HumanUpdate variants the Human-in-Loop
gate replaces the poll step: when the corresponding flag does not become
true within the 60-second timeout the run fails with the non-retryable
"Load did not complete before timeout" error, and when it does the run
reaches progress 100 and terminates successfully with no poll invocation in
its trace. -/
theorem human_in_loop_gate (o : Oracles) (input : DataPipelineParams)
    (tq s1 s2 s3 : String)
    (hq : o.get_available_task_queue = Except.ok tq)
    (hv : o.validate input = Except.ok true)
    (he : o.extract input = Except.ok s1)
    (ht : o.transform input = Except.ok s2)
    (hl : o.load 0 input = Except.ok s3) :
    ((o.signalWithin60 = false →
       (scenariosRun o input SIGNAL).outcome =
         RunOutcome.failed "Load did not complete before timeout" none false ∧
       (scenariosRun o input SIGNAL).finalProgress = 80) ∧
     (o.signalWithin60 = true →
       (scenariosRun o input SIGNAL).outcome =
         RunOutcome.completed
           ("Successfully processed: " ++ input.input_filename ++ "!") ∧
       (scenariosRun o input SIGNAL).finalProgress = 100 ∧
       ∀ a q, Event.activity "poll" a q ∉ (scenariosRun o input SIGNAL).trace)) ∧
    ((o.updateWithin60 = false →
       (scenariosRun o input UPDATE).outcome =
         RunOutcome.failed "Load did not complete before timeout" none false ∧
       (scenariosRun o input UPDATE).finalProgress = 80) ∧
     (o.updateWithin60 = true →
       (scenariosRun o input UPDATE).outcome =
         RunOutcome.completed
           ("Successfully processed: " ++ input.input_filename ++ "!") ∧
       (scenariosRun o input UPDATE).finalProgress = 100 ∧
       ∀ a q, Event.activity "poll" a q ∉ (scenariosRun o input UPDATE).trace)) := by
  refine ⟨⟨?_, ?_⟩, ⟨?_, ?_⟩⟩ <;> intro hw <;>
    simp [scenariosRun, scenariosTail, hq, hv, he, ht, hl, hw,
      BUG, FAILURE, SIGNAL, UPDATE, VISIBILITY, IDEMPOTENCY]

/-- C8 witness: the theorem applied at concrete oracles for both the
timeout and the delivered-signal outcomes. -/
theorem human_in_loop_gate_witness :
    (scenariosRun timeoutOracles ⟨"f.csv", "green"⟩ SIGNAL).outcome =
      RunOutcome.failed "Load did not complete before timeout" none false ∧
    (scenariosRun okOracles ⟨"f.csv", "green"⟩ SIGNAL).outcome =
      RunOutcome.completed "Successfully processed: f.csv!" ∧
    (scenariosRun okOracles ⟨"f.csv", "green"⟩ SIGNAL).finalProgress = 100 := by
  have h1 := human_in_loop_gate timeoutOracles ⟨"f.csv", "green"⟩
    "worker-q-1" "extracted" "transformed" "loaded" rfl rfl rfl rfl rfl
  have h2 := human_in_loop_gate okOracles ⟨"f.csv", "green"⟩
    "worker-q-1" "extracted" "transformed" "loaded" rfl rfl rfl rfl rfl
  exact ⟨(h1.1.1 rfl).1, (h2.1.2 rfl).1, (h2.1.2 rfl).2.1⟩

/-- C9: under the Idempotency variant a run whose stages succeed invokes the
load activity exactly twice, with the identical request object and the
identical execution channel, and terminates with the same Success message
and final progress 100 as the base Happy-path sequence. -/
theorem idempotency_double_load (o : Oracles) (input : DataPipelineParams)
    (tq s1 s2 s3 s4 s5 : String)
    (hq : o.get_available_task_queue = Except.ok tq)
    (hv : o.validate input = Except.ok true)
    (he : o.extract input = Except.ok s1)
    (ht : o.transform input = Except.ok s2)
    (hl0 : o.load 0 input = Except.ok s3)
    (hl1 : o.load 1 input = Except.ok s4)
    (hp : o.poll input = Except.ok s5) :
    loadCalls (scenariosRun o input IDEMPOTENCY).trace =
      [Event.activity "load" (ActArgs.params input) (some tq),
       Event.activity "load" (ActArgs.params input) (some tq)] ∧
    (scenariosRun o input IDEMPOTENCY).outcome =
      RunOutcome.completed
        ("Successfully processed: " ++ input.input_filename ++ "!") ∧
    (scenariosRun o input IDEMPOTENCY).finalProgress = 100 ∧
    (scenariosRun o input IDEMPOTENCY).outcome = (happyPathRun o input).outcome ∧
    (scenariosRun o input IDEMPOTENCY).finalProgress =
      (happyPathRun o input).finalProgress := by
  simp [scenariosRun, scenariosTail, happyPathRun, hq, hv, he, ht, hl0, hl1, hp,
    BUG, FAILURE, SIGNAL, UPDATE, VISIBILITY, IDEMPOTENCY,
    loadCalls_append, loadCalls_ite, loadCalls]

/-- C9 witness: the theorem applied at a concrete accepting oracle. -/
theorem idempotency_double_load_witness :
    loadCalls (scenariosRun okOracles ⟨"f.csv", "green"⟩ IDEMPOTENCY).trace =
      [Event.activity "load" (ActArgs.params ⟨"f.csv", "green"⟩)
        (some "worker-q-1"),
       Event.activity "load" (ActArgs.params ⟨"f.csv", "green"⟩)
        (some "worker-q-1")] ∧
    (scenariosRun okOracles ⟨"f.csv", "green"⟩ IDEMPOTENCY).finalProgress = 100 := by
  have h := idempotency_double_load okOracles ⟨"f.csv", "green"⟩
    "worker-q-1" "extracted" "transformed" "loaded" "loaded" "polled"
    rfl rfl rfl rfl rfl rfl rfl
  exact ⟨h.1, h.2.2.1⟩

/-- C10: for every state and every payload, the signal handler sets only the
load-complete-signal flag (the progress query value and the update flag are
unchanged), the update handler sets only the load-complete-update flag and
returns the constant acknowledgment string, and neither handler's effect or
return value depends on its payload argument. -/
theorem handlers_frame_payload_independent :
    ∀ (s : WorkflowState) (p q : String),
      load_complete_signal_handler s p =
        { s with load_complete_signal := true } ∧
      progress_query (load_complete_signal_handler s p) = progress_query s ∧
      (load_complete_signal_handler s p).load_complete_update =
        s.load_complete_update ∧
      load_complete_signal_handler s p = load_complete_signal_handler s q ∧
      (load_complete_update_handler s p).1 =
        { s with load_complete_update := true } ∧
      progress_query (load_complete_update_handler s p).1 = progress_query s ∧
      (load_complete_update_handler s p).1.load_complete_signal =
        s.load_complete_signal ∧
      (load_complete_update_handler s p).2 = "Workflow update successful" ∧
      load_complete_update_handler s p = load_complete_update_handler s q := by
  intro s p q
  exact ⟨rfl, rfl, rfl, rfl, rfl, rfl, rfl, rfl, rfl⟩

end DataPipeline
